import Mathlib

/-! The connection facade of `client.go` (auth-client).

A shallow embedding of `New` and `Facade.Close` from `src/client.go`.

The two functions are glue over external collaborators (the gRPC dial, the
xDS credential constructor, the logger, the connection's `Close`).  The
collaborators are parameters of the model (`World`); every call that the Go
code makes on them is recorded, in program order, in a trace of `Event`s, so
that statements such as "the dial is never attempted" or "exactly one log
entry" are statements about that trace.

Go values are modelled as follows.

* `string` is a sequence of bytes (`GoString`); `len` is the byte count and
  `s[:n]` is a byte slice that is out of range when `n > len(s)`.
* a pointer result that may be `nil` is an `Option`.
* a pair `(v, err)` returned by a collaborator is an `Except`: the Go code
  reads `v` only when `err == nil`.
* a run-time panic is an explicit result (`Result.panicked`).
-/

namespace AuthClient

/-! ## Go strings -/

/-- A Go `string`: an immutable sequence of bytes. -/
abbrev GoString := List UInt8

/-- The bytes of a Go string literal (Go source text is UTF-8). -/
def lit (s : String) : GoString := s.toUTF8.data.toList

/-- The Go simple slice expression `s[:hi]` on a string: the first `hi` bytes,
or `none` (a run-time panic, slice bounds out of range) when `hi > len(s)`. -/
def sliceTo (s : GoString) (hi : Nat) : Option GoString :=
  if hi ≤ s.length then some (s.take hi) else none

/-! ## Go errors -/

/-- A Go `error` value, as far as `client.go` can observe one: its `Error()`
text and what `Unwrap()` gives.  `errorString` is an error with no `Unwrap`;
`wrapError` is the `*fmt.wrapError` built by `fmt.Errorf` with a `%w` verb. -/
inductive GoError where
  | errorString (text : GoString)
  | wrapError (msg : GoString) (err : GoError)
  deriving DecidableEq

/-- The `Error()` method. -/
def GoError.Error : GoError → GoString
  | .errorString text => text
  | .wrapError msg _ => msg

/-- The `Unwrap()` method (`none` when the error wraps nothing). -/
def GoError.Unwrap : GoError → Option GoError
  | .errorString _ => none
  | .wrapError _ err => some err

/-- The call `fmt.Errorf(pre + "%w", err)` for a non-nil `err`, where `pre`
holds no verb: the message is `pre` followed by `err.Error()`, and the result
unwraps to `err`. -/
def Errorf (pre : GoString) (err : GoError) : GoError :=
  .wrapError (pre ++ err.Error) err

/-! ## External types -/

/-- A `credentials.TransportCredentials` value: the one built by
`insecure.NewCredentials()`, or a bundle handed out by the xDS credential
constructor. -/
inductive TransportCredentials where
  | insecure
  | bundle (id : Nat)
  deriving DecidableEq

/-- The type `xdscreds.ClientOptions`. -/
structure ClientOptions where
  FallbackCreds : TransportCredentials
  deriving DecidableEq

/-- A `grpc.DialOption`, restricted to the two constructors `New` uses. -/
inductive DialOption where
  | WithDefaultServiceConfig (s : GoString)
  | WithTransportCredentials (creds : TransportCredentials)
  deriving DecidableEq

/-- A `*grpc.ClientConn` that is not nil, identified by the connection. -/
structure ClientConn where
  id : Nat
  deriving DecidableEq

/-- A `*log.Logger`, identified by the sink. -/
structure Logger where
  id : Nat
  deriving DecidableEq

/-- Modelled from the spec: the environment indicator of the configuration
(its declaration is in the package `client_options`, outside `src/`).  The
spec gives it one capability, "is this a development environment"; the field
is what the call `IsDev()` reports. -/
structure Environment where
  IsDev : Bool
  deriving DecidableEq

/-- Modelled from the spec: the type `client_options.Options` (declared
outside `src/`), with the three fields `New` reads: `AddressName` (a string,
empty when no address is given), `ENV` (may be nil) and `Log`. -/
structure Options where
  AddressName : GoString
  ENV : Option Environment
  Log : Logger
  deriving DecidableEq

/-- Modelled from the spec: the position stub handle of the generated package
`services_v1` (outside `src/`): a client object bound to one connection. -/
structure PositionServiceClient where
  cc : ClientConn
  deriving DecidableEq

/-- Modelled from the spec: the staff stub handle of `services_v1`. -/
structure StaffsServiceClient where
  cc : ClientConn
  deriving DecidableEq

/-- Modelled from the spec: the JWT stub handle of `services_v1`. -/
structure JwtServiceClient where
  cc : ClientConn
  deriving DecidableEq

/-- Modelled from the spec: `services_v1.NewPositionServiceClient`, which
binds a stub handle to the connection it is given. -/
def NewPositionServiceClient (cc : ClientConn) : PositionServiceClient := ⟨cc⟩

/-- Modelled from the spec: `services_v1.NewStaffsServiceClient`. -/
def NewStaffsServiceClient (cc : ClientConn) : StaffsServiceClient := ⟨cc⟩

/-- Modelled from the spec: `services_v1.NewJwtServiceClient`. -/
def NewJwtServiceClient (cc : ClientConn) : JwtServiceClient := ⟨cc⟩

/-! ## The facade, the collaborators and the trace -/

/-- The struct `Facade` (client.go, lines 15-23). -/
structure Facade where
  conn : ClientConn
  log : Logger
  Position : PositionServiceClient
  Staffs : StaffsServiceClient
  Jwt : JwtServiceClient
  deriving DecidableEq

/-- The fields argument of a log call, `map[string]interface{}`; every value
`New` stores is a string.  Kept in the order of the source literal. -/
abbrev Fields := List (GoString × GoString)

/-- One call made on an external collaborator. -/
inductive Event where
  | XdsNewClientCredentials (opts : ClientOptions)
  | NewClient (target : GoString) (opts : List DialOption)
  | LogError (log : Logger) (msg : GoString) (fields : Fields)
  | LogInfo (log : Logger) (msg : GoString) (fields : Fields)
  | ConnClose (conn : ClientConn)
  deriving DecidableEq

/-- What the external collaborators answer.
`XdsNewClientCredentials` is `xdscreds.NewClientCredentials`, `NewClient` is
`grpc.NewClient`, `ConnClose` is `(*grpc.ClientConn).Close` (`none` is a nil
error). -/
structure World where
  XdsNewClientCredentials : ClientOptions → Except GoError TransportCredentials
  NewClient : GoString → List DialOption → Except GoError ClientConn
  ConnClose : ClientConn → Option GoError

/-- How a call of `New` ends: it returns the pair `(*Facade, error)`, either
of which may be nil, or it panics. -/
inductive Result where
  | returned (facade : Option Facade) (err : Option GoError)
  | panicked
  deriving DecidableEq

/-- A finished call of `New`: the collaborator calls it made, and its result. -/
structure Outcome where
  trace : List Event
  result : Result
  deriving DecidableEq

/-- How a call of `Close` ends. -/
inductive CloseResult where
  | returned (err : Option GoError)
  | panicked
  deriving DecidableEq

/-- A finished call of `Close`. -/
structure CloseOutcome where
  trace : List Event
  result : CloseResult
  deriving DecidableEq

/-! ## `New` -/

/-- The string literal of line 36, the fallback target. -/
def fallbackTarget : GoString := lit "todo-service.svc.cluster.local:8443"

/-- The string literal of line 41, the default service config. -/
def roundRobinConfig : GoString := lit "\x7b\"loadBalancingPolicy\":\"round_robin\"\x7d"

/-- The string literal of line 48, the scheme of a discovery address. -/
def xdsScheme : GoString := lit "xds://"

/-- The expression `len(a) < 6 || a[:6] != "xds://"` of line 48, with Go's
short-circuit evaluation: the slice is taken only when the length test is
false.  `none` is a panic of the slice expression. -/
def notXdsAddress (a : GoString) : Option Bool :=
  if a.length < 6 then some true
  else (sliceTo a 6).map (fun p => decide (p ≠ xdsScheme))

/-- The condition `o.ENV != nil && o.ENV.IsDev()` of line 46. -/
def envIsDev (o : Options) : Bool :=
  match o.ENV with
  | none => false
  | some env => env.IsDev

/-- Lines 62-82 of `New`: the dial, the log entry and the construction of the
facade.  `pre` is the trace of the calls made before line 62. -/
def connect (w : World) (o : Options) (pre : List Event) (target : GoString)
    (dialOpts : List DialOption) : Outcome :=
  match w.NewClient target dialOpts with
  | .error err =>
    { trace := pre ++ [Event.NewClient target dialOpts,
        Event.LogError o.Log (lit "Failed to connect to auth service")
          [(lit "target", target), (lit "error", err.Error)]],
      result := .returned none (some err) }
  | .ok conn =>
    { trace := pre ++ [Event.NewClient target dialOpts,
        Event.LogInfo o.Log (lit "Connected to auth service") [(lit "target", target)]],
      result := .returned
        (some { conn := conn,
                log := o.Log,
                Position := NewPositionServiceClient conn,
                Staffs := NewStaffsServiceClient conn,
                Jwt := NewJwtServiceClient conn })
        none }

/-- The function `New` (client.go, lines 25-82). -/
def New (w : World) (o : Options) : Outcome :=
  let target : GoString :=
    if o.AddressName ≠ [] then o.AddressName
    else fallbackTarget
  let dialOpts : List DialOption :=
    [DialOption.WithDefaultServiceConfig roundRobinConfig]
  if envIsDev o then
    connect w o [] target
      (dialOpts ++ [DialOption.WithTransportCredentials TransportCredentials.insecure])
  else
    match (if o.AddressName ≠ [] then notXdsAddress o.AddressName else some false) with
    | none => { trace := [], result := .panicked }
    | some true =>
      connect w o [] target
        (dialOpts ++ [DialOption.WithTransportCredentials TransportCredentials.insecure])
    | some false =>
      let xdsOpts : ClientOptions := { FallbackCreds := TransportCredentials.insecure }
      match w.XdsNewClientCredentials xdsOpts with
      | .error err =>
        { trace := [Event.XdsNewClientCredentials xdsOpts],
          result := .returned none
            (some (Errorf (lit "failed to create xds credentials: ") err)) }
      | .ok creds =>
        connect w o [Event.XdsNewClientCredentials xdsOpts] target
          (dialOpts ++ [DialOption.WithTransportCredentials creds])

/-! ## `Close` -/

/-- The method `(*Facade).Close` (client.go, lines 84-87).  The receiver is a
pointer; reading `c.conn` through a nil receiver panics. -/
def Facade.Close (w : World) (c : Option Facade) : CloseOutcome :=
  match c with
  | none => { trace := [], result := .panicked }
  | some f => { trace := [Event.ConnClose f.conn], result := .returned (w.ConnClose f.conn) }

/-! ## Observations on a trace -/

/-- The dials recorded in a trace: target and option list of each, in order. -/
def dialCalls (tr : List Event) : List (GoString × List DialOption) :=
  tr.filterMap fun ev =>
    match ev with
    | Event.NewClient target opts => some (target, opts)
    | _ => none

/-- The discovery-based credential constructions recorded in a trace. -/
def xdsCalls (tr : List Event) : List ClientOptions :=
  tr.filterMap fun ev =>
    match ev with
    | Event.XdsNewClientCredentials opts => some opts
    | _ => none

/-- Whether an event is a log entry (of either level). -/
def Event.isLog : Event → Bool
  | Event.LogError _ _ _ => true
  | Event.LogInfo _ _ _ => true
  | _ => false

/-- The log entries recorded in a trace, in order. -/
def logEntries (tr : List Event) : List Event := tr.filter Event.isLog

/-! ## Example collaborators and configurations -/

/-- A world in which every collaborator succeeds: the xDS constructor hands
out bundle 3, the dial hands out connection 7, the release reports no error. -/
def worldOk : World :=
  { XdsNewClientCredentials := fun _ => .ok (TransportCredentials.bundle 3),
    NewClient := fun _ _ => .ok ⟨7⟩,
    ConnClose := fun _ => none }

/-- A world in which the dial fails with "connection refused" and the release
fails with "already closed". -/
def worldDialFails : World :=
  { XdsNewClientCredentials := fun _ => .ok (TransportCredentials.bundle 3),
    NewClient := fun _ _ => .error (GoError.errorString (lit "connection refused")),
    ConnClose := fun _ => some (GoError.errorString (lit "already closed")) }

/-- A world in which the xDS credential constructor fails with "no bootstrap". -/
def worldXdsFails : World :=
  { XdsNewClientCredentials := fun _ => .error (GoError.errorString (lit "no bootstrap")),
    NewClient := fun _ _ => .ok ⟨7⟩,
    ConnClose := fun _ => none }

/-- The configuration with a plain custom address, no environment. -/
def optsPlain : Options := { AddressName := lit "localhost:9000", ENV := none, Log := ⟨1⟩ }

/-- The configuration with no address, development environment. -/
def optsDevEmpty : Options := { AddressName := [], ENV := some ⟨true⟩, Log := ⟨1⟩ }

/-- The configuration with a discovery address, production environment. -/
def optsXds : Options :=
  { AddressName := lit "xds://cluster/svc", ENV := some ⟨false⟩, Log := ⟨1⟩ }

/-- The configuration with no address and no environment. -/
def optsEmpty : Options := { AddressName := [], ENV := none, Log := ⟨1⟩ }

/-! ## Lemmas on the branches of `New` -/

theorem xdsScheme_length : xdsScheme.length = 6 := by decide

theorem notXdsAddress_eq (a : GoString) :
    notXdsAddress a = some (decide (¬ xdsScheme <+: a)) := by
  unfold notXdsAddress
  by_cases h : a.length < 6
  · have hp : ¬ xdsScheme <+: a := by
      intro hp
      have := hp.length_le
      rw [xdsScheme_length] at this
      omega
    simp [h, hp]
  · have h6 : 6 ≤ a.length := by omega
    have hiff : xdsScheme <+: a ↔ List.take 6 a = xdsScheme := by
      rw [List.prefix_iff_eq_take, xdsScheme_length]
      exact eq_comm
    simp [h, sliceTo, h6, hiff]

theorem connect_trace_dial (w : World) (o : Options) (pre : List Event) (t : GoString)
    (d : List DialOption) :
    dialCalls (connect w o pre t d).trace = dialCalls pre ++ [(t, d)] := by
  unfold connect
  cases w.NewClient t d <;> simp [dialCalls, List.filterMap_append]

theorem connect_trace_xds (w : World) (o : Options) (pre : List Event) (t : GoString)
    (d : List DialOption) :
    xdsCalls (connect w o pre t d).trace = xdsCalls pre := by
  unfold connect
  cases w.NewClient t d <;> simp [xdsCalls, List.filterMap_append]

theorem connect_trace_head (w : World) (o : Options) (e : Event) (pre : List Event)
    (t : GoString) (d : List DialOption) :
    (connect w o (e :: pre) t d).trace.head? = some e := by
  unfold connect
  split <;> rfl

theorem New_of_dev (w : World) (o : Options) (h : envIsDev o = true) :
    New w o = connect w o []
      (if o.AddressName ≠ [] then o.AddressName else fallbackTarget)
      [DialOption.WithDefaultServiceConfig roundRobinConfig,
       DialOption.WithTransportCredentials TransportCredentials.insecure] := by
  simp [New, h]

theorem New_of_plain (w : World) (o : Options) (h : envIsDev o = false)
    (ha : o.AddressName ≠ []) (hx : ¬ xdsScheme <+: o.AddressName) :
    New w o = connect w o [] o.AddressName
      [DialOption.WithDefaultServiceConfig roundRobinConfig,
       DialOption.WithTransportCredentials TransportCredentials.insecure] := by
  simp [New, h, ha, notXdsAddress_eq, hx]

theorem New_of_discovery (w : World) (o : Options) (h : envIsDev o = false)
    (hx : o.AddressName = [] ∨ xdsScheme <+: o.AddressName) :
    New w o =
      match w.XdsNewClientCredentials { FallbackCreds := TransportCredentials.insecure } with
      | .error err =>
        { trace := [Event.XdsNewClientCredentials
            { FallbackCreds := TransportCredentials.insecure }],
          result := .returned none
            (some (Errorf (lit "failed to create xds credentials: ") err)) }
      | .ok creds =>
        connect w o
          [Event.XdsNewClientCredentials { FallbackCreds := TransportCredentials.insecure }]
          (if o.AddressName ≠ [] then o.AddressName else fallbackTarget)
          [DialOption.WithDefaultServiceConfig roundRobinConfig,
           DialOption.WithTransportCredentials creds] := by
  rcases hx with hx | hx
  · simp [New, h, hx]
  · by_cases ha : o.AddressName = []
    · simp [New, h, ha]
    · simp [New, h, ha, notXdsAddress_eq, hx]

theorem envIsDev_cases (o : Options) (h : envIsDev o = false) :
    o.ENV = none ∨ ∃ env, o.ENV = some env ∧ env.IsDev = false := by
  unfold envIsDev at h
  cases he : o.ENV with
  | none => exact Or.inl rfl
  | some env => rw [he] at h; exact Or.inr ⟨env, rfl, h⟩

theorem envIsDev_false (o : Options)
    (h : o.ENV = none ∨ ∃ env, o.ENV = some env ∧ env.IsDev = false) :
    envIsDev o = false := by
  unfold envIsDev
  rcases h with h | ⟨env, h, hd⟩
  · simp [h]
  · simp [h, hd]

/-- Every call of `New` has one of two shapes: it stops at a failed
credential construction, or it runs lines 62-82 on the resolved target with the
round-robin option followed by one credentials option. -/
theorem New_shape (w : World) (o : Options) :
    (∃ err, w.XdsNewClientCredentials { FallbackCreds := TransportCredentials.insecure }
        = .error err ∧
      New w o =
        { trace := [Event.XdsNewClientCredentials
            { FallbackCreds := TransportCredentials.insecure }],
          result := .returned none
            (some (Errorf (lit "failed to create xds credentials: ") err)) }) ∨
    (∃ pre creds,
      (pre = [] ∨
        (pre = [Event.XdsNewClientCredentials
          { FallbackCreds := TransportCredentials.insecure }] ∧
         w.XdsNewClientCredentials { FallbackCreds := TransportCredentials.insecure }
          = .ok creds)) ∧
      New w o = connect w o pre
        (if o.AddressName ≠ [] then o.AddressName else fallbackTarget)
        [DialOption.WithDefaultServiceConfig roundRobinConfig,
         DialOption.WithTransportCredentials creds]) := by
  cases hdev : envIsDev o with
  | true => exact Or.inr ⟨[], _, Or.inl rfl, New_of_dev w o hdev⟩
  | false =>
    by_cases hx : o.AddressName = [] ∨ xdsScheme <+: o.AddressName
    · have hN := New_of_discovery w o hdev hx
      cases hc : w.XdsNewClientCredentials
          { FallbackCreds := TransportCredentials.insecure } with
      | error err =>
        rw [hc] at hN
        exact Or.inl ⟨err, rfl, hN⟩
      | ok creds =>
        rw [hc] at hN
        exact Or.inr ⟨_, creds, Or.inr ⟨rfl, rfl⟩, hN⟩
    · have ha : o.AddressName ≠ [] := fun h => hx (Or.inl h)
      have hp : ¬ xdsScheme <+: o.AddressName := fun h => hx (Or.inr h)
      refine Or.inr ⟨[], TransportCredentials.insecure, Or.inl rfl, ?_⟩
      rw [New_of_plain w o hdev ha hp]
      simp [ha]

theorem connect_dial_mem (w : World) (o : Options) (pre : List Event) (t0 : GoString)
    (d0 : List DialOption) (t : GoString) (d : List DialOption)
    (h : Event.NewClient t d ∈ (connect w o pre t0 d0).trace) :
    Event.NewClient t d ∈ pre ∨ (t = t0 ∧ d = d0) := by
  unfold connect at h
  cases hc : w.NewClient t0 d0 <;> rw [hc] at h <;> simp at h <;> tauto

theorem connect_xds_mem (w : World) (o : Options) (pre : List Event) (t0 : GoString)
    (d0 : List DialOption) (co : ClientOptions)
    (h : Event.XdsNewClientCredentials co ∈ (connect w o pre t0 d0).trace) :
    Event.XdsNewClientCredentials co ∈ pre := by
  unfold connect at h
  cases hc : w.NewClient t0 d0 <;> rw [hc] at h <;> simp at h <;> exact h

theorem connect_logEntries_error (w : World) (o : Options) (pre : List Event)
    (t : GoString) (d : List DialOption) (e : GoError) (he : w.NewClient t d = .error e) :
    logEntries (connect w o pre t d).trace = logEntries pre ++
      [Event.LogError o.Log (lit "Failed to connect to auth service")
        [(lit "target", t), (lit "error", e.Error)]] := by
  unfold connect
  rw [he]
  simp [logEntries, Event.isLog]

theorem connect_logEntries_ok (w : World) (o : Options) (pre : List Event)
    (t : GoString) (d : List DialOption) (c : ClientConn) (hc : w.NewClient t d = .ok c) :
    logEntries (connect w o pre t d).trace = logEntries pre ++
      [Event.LogInfo o.Log (lit "Connected to auth service") [(lit "target", t)]] := by
  unfold connect
  rw [hc]
  simp [logEntries, Event.isLog]

/-- A dial recorded by `New` has the resolved target and the two-option list. -/
theorem New_dial_mem (w : World) (o : Options) (t : GoString) (d : List DialOption)
    (h : Event.NewClient t d ∈ (New w o).trace) :
    t = (if o.AddressName ≠ [] then o.AddressName else fallbackTarget) ∧
    ∃ creds, d = [DialOption.WithDefaultServiceConfig roundRobinConfig,
                  DialOption.WithTransportCredentials creds] := by
  rcases New_shape w o with ⟨err, _, hN⟩ | ⟨pre, creds, hpre, hN⟩
  · rw [hN] at h
    simp at h
  · rw [hN] at h
    rcases connect_dial_mem w o pre _ _ t d h with hm | ⟨ht, hd⟩
    · rcases hpre with hpre | ⟨hpre, _⟩ <;> rw [hpre] at hm <;> simp at hm
    · exact ⟨ht, creds, hd⟩

/-- When `New` records a dial, its outcome is that of lines 62-82 run on that
dial, after at most one credential construction. -/
theorem New_dial_connect (w : World) (o : Options) (t : GoString) (d : List DialOption)
    (h : Event.NewClient t d ∈ (New w o).trace) :
    ∃ pre, (pre = [] ∨
        pre = [Event.XdsNewClientCredentials
          { FallbackCreds := TransportCredentials.insecure }]) ∧
      New w o = connect w o pre t d := by
  rcases New_shape w o with ⟨err, _, hN⟩ | ⟨pre, creds, hpre, hN⟩
  · rw [hN] at h
    simp at h
  · have h2 := h
    rw [hN] at h2
    rcases connect_dial_mem w o pre _ _ t d h2 with hm | ⟨ht, hd⟩
    · rcases hpre with hpre | ⟨hpre, _⟩ <;> rw [hpre] at hm <;> simp at hm
    · exact ⟨pre, hpre.imp id And.left, by rw [hN, ht, hd]⟩

/-! ## Target resolution and credential selection -/

/-- C1: whenever `New` dials, the target of the dial is the configuration's
`AddressName`, unchanged, when `AddressName` is non-empty, and the fallback
identifier `todo-service.svc.cluster.local:8443` when it is empty; any other
call of `New`, with any collaborators, environment indicator and logger but
the same `AddressName`, dials the same target. -/
theorem New_dial_target (w : World) (o : Options) (t : GoString) (opts : List DialOption)
    (h : Event.NewClient t opts ∈ (New w o).trace) :
    (o.AddressName ≠ [] → t = o.AddressName) ∧
    (o.AddressName = [] → t = lit "todo-service.svc.cluster.local:8443") ∧
    (∀ (w2 : World) (o2 : Options) (t2 : GoString) (opts2 : List DialOption),
      o2.AddressName = o.AddressName →
      Event.NewClient t2 opts2 ∈ (New w2 o2).trace → t2 = t) := by
  have ht := (New_dial_mem w o t opts h).1
  refine ⟨?_, ?_, ?_⟩
  · intro ha
    rw [ht]
    simp [ha]
  · intro ha
    rw [ht]
    simp [ha, fallbackTarget]
  · intro w2 o2 t2 opts2 ha h2
    rw [ht, (New_dial_mem w2 o2 t2 opts2 h2).1, ha]

theorem New_dial_target_witness :
    Event.NewClient (lit "localhost:9000")
        [DialOption.WithDefaultServiceConfig roundRobinConfig,
         DialOption.WithTransportCredentials TransportCredentials.insecure]
      ∈ (New worldOk optsPlain).trace ∧
    ((optsPlain.AddressName ≠ [] → lit "localhost:9000" = optsPlain.AddressName) ∧
     (optsPlain.AddressName = [] →
        lit "localhost:9000" = lit "todo-service.svc.cluster.local:8443") ∧
     (∀ (w2 : World) (o2 : Options) (t2 : GoString) (opts2 : List DialOption),
        o2.AddressName = optsPlain.AddressName →
        Event.NewClient t2 opts2 ∈ (New w2 o2).trace → t2 = lit "localhost:9000")) :=
  ⟨by decide,
   New_dial_target worldOk optsPlain (lit "localhost:9000")
     [DialOption.WithDefaultServiceConfig roundRobinConfig,
      DialOption.WithTransportCredentials TransportCredentials.insecure] (by decide)⟩

/-- C2: when the environment indicator is present and reports development,
`New` attempts no discovery-based credential construction and dials once, with
the insecure transport credentials, whatever `AddressName` is. -/
theorem New_dev_insecure (w : World) (o : Options) (env : Environment)
    (he : o.ENV = some env) (hd : env.IsDev = true) :
    xdsCalls (New w o).trace = [] ∧
    dialCalls (New w o).trace =
      [(if o.AddressName ≠ [] then o.AddressName else fallbackTarget,
        [DialOption.WithDefaultServiceConfig roundRobinConfig,
         DialOption.WithTransportCredentials TransportCredentials.insecure])] := by
  have hdev : envIsDev o = true := by simp [envIsDev, he, hd]
  rw [New_of_dev w o hdev, connect_trace_xds, connect_trace_dial]
  simp [xdsCalls, dialCalls]

theorem New_dev_insecure_witness :
    (optsDevEmpty.ENV = some ⟨true⟩ ∧ (⟨true⟩ : Environment).IsDev = true) ∧
    (xdsCalls (New worldXdsFails optsDevEmpty).trace = [] ∧
     dialCalls (New worldXdsFails optsDevEmpty).trace =
      [(if optsDevEmpty.AddressName ≠ [] then optsDevEmpty.AddressName else fallbackTarget,
        [DialOption.WithDefaultServiceConfig roundRobinConfig,
         DialOption.WithTransportCredentials TransportCredentials.insecure])]) :=
  ⟨⟨rfl, rfl⟩, New_dev_insecure worldXdsFails optsDevEmpty ⟨true⟩ rfl rfl⟩

/-- C3: when the environment indicator is absent or reports not-development,
`New` selects the insecure credentials without a discovery-based construction
if and only if `AddressName` is non-empty and does not start with `xds://`; in
the remaining cases (empty, or starting with `xds://`) its first call is the
discovery-based credential construction with the insecure credentials as the
fallback, and the credentials that construction yields are the ones dialled. -/
theorem New_nondev_credentials (w : World) (o : Options)
    (hnd : o.ENV = none ∨ ∃ env, o.ENV = some env ∧ env.IsDev = false) :
    ((xdsCalls (New w o).trace = [] ∧
      dialCalls (New w o).trace =
        [(if o.AddressName ≠ [] then o.AddressName else fallbackTarget,
          [DialOption.WithDefaultServiceConfig roundRobinConfig,
           DialOption.WithTransportCredentials TransportCredentials.insecure])]) ↔
      (o.AddressName ≠ [] ∧ ¬ lit "xds://" <+: o.AddressName)) ∧
    ((o.AddressName = [] ∨ lit "xds://" <+: o.AddressName) →
      (New w o).trace.head? =
        some (Event.XdsNewClientCredentials
          { FallbackCreds := TransportCredentials.insecure }) ∧
      xdsCalls (New w o).trace = [{ FallbackCreds := TransportCredentials.insecure }] ∧
      ∀ creds,
        w.XdsNewClientCredentials { FallbackCreds := TransportCredentials.insecure }
          = .ok creds →
        dialCalls (New w o).trace =
          [(if o.AddressName ≠ [] then o.AddressName else fallbackTarget,
            [DialOption.WithDefaultServiceConfig roundRobinConfig,
             DialOption.WithTransportCredentials creds])]) := by
  have hdev := envIsDev_false o hnd
  have hdisc : (o.AddressName = [] ∨ xdsScheme <+: o.AddressName) →
      (New w o).trace.head? =
        some (Event.XdsNewClientCredentials
          { FallbackCreds := TransportCredentials.insecure }) ∧
      xdsCalls (New w o).trace = [{ FallbackCreds := TransportCredentials.insecure }] ∧
      ∀ creds,
        w.XdsNewClientCredentials { FallbackCreds := TransportCredentials.insecure }
          = .ok creds →
        dialCalls (New w o).trace =
          [(if o.AddressName ≠ [] then o.AddressName else fallbackTarget,
            [DialOption.WithDefaultServiceConfig roundRobinConfig,
             DialOption.WithTransportCredentials creds])] := by
    intro hx
    have hN := New_of_discovery w o hdev hx
    cases hc : w.XdsNewClientCredentials
        { FallbackCreds := TransportCredentials.insecure } with
    | error err =>
      rw [hc] at hN
      dsimp only at hN
      rw [hN]
      simp [xdsCalls]
    | ok creds =>
      rw [hc] at hN
      dsimp only at hN
      rw [hN, connect_trace_xds, connect_trace_dial, connect_trace_head]
      refine ⟨rfl, by simp [xdsCalls], ?_⟩
      · intro creds2 h2
        cases h2
        simp [dialCalls]
  refine ⟨⟨?_, ?_⟩, hdisc⟩
  · rintro ⟨hx, _⟩
    by_contra hcon
    have hx2 : o.AddressName = [] ∨ xdsScheme <+: o.AddressName := by
      by_cases ha : o.AddressName = []
      · exact Or.inl ha
      · right
        by_contra hp
        exact hcon ⟨ha, hp⟩
    rw [(hdisc hx2).2.1] at hx
    simp at hx
  · rintro ⟨ha, hp⟩
    rw [New_of_plain w o hdev ha hp, connect_trace_xds, connect_trace_dial]
    simp [xdsCalls, dialCalls, ha]

theorem New_nondev_credentials_witness :
    (optsXds.ENV = none ∨ ∃ env, optsXds.ENV = some env ∧ env.IsDev = false) ∧
    (New worldOk optsXds).trace.head? =
      some (Event.XdsNewClientCredentials
        { FallbackCreds := TransportCredentials.insecure }) ∧
    dialCalls (New worldOk optsXds).trace =
      [(lit "xds://cluster/svc",
        [DialOption.WithDefaultServiceConfig roundRobinConfig,
         DialOption.WithTransportCredentials (TransportCredentials.bundle 3)])] :=
  have hnd : optsXds.ENV = none ∨ ∃ env, optsXds.ENV = some env ∧ env.IsDev = false :=
    Or.inr ⟨⟨false⟩, rfl, rfl⟩
  have hx : optsXds.AddressName = [] ∨ lit "xds://" <+: optsXds.AddressName :=
    Or.inr (by decide)
  have h := (New_nondev_credentials worldOk optsXds hnd).2 hx
  ⟨hnd, h.1, h.2.2 (TransportCredentials.bundle 3) rfl⟩

/-- C9: whenever `New` dials, the option list of the dial is exactly two
options, in this order: the default service config
`{"loadBalancingPolicy":"round_robin"}`, then one transport-credentials
option. -/
theorem New_dial_options (w : World) (o : Options) (t : GoString) (opts : List DialOption)
    (h : Event.NewClient t opts ∈ (New w o).trace) :
    opts.length = 2 ∧
    ∃ creds, opts =
      [DialOption.WithDefaultServiceConfig
          (lit "\x7b\"loadBalancingPolicy\":\"round_robin\"\x7d"),
       DialOption.WithTransportCredentials creds] := by
  obtain ⟨creds, hd⟩ := (New_dial_mem w o t opts h).2
  subst hd
  exact ⟨rfl, creds, rfl⟩

theorem New_dial_options_witness :
    Event.NewClient (lit "xds://cluster/svc")
        [DialOption.WithDefaultServiceConfig roundRobinConfig,
         DialOption.WithTransportCredentials (TransportCredentials.bundle 3)]
      ∈ (New worldOk optsXds).trace ∧
    ([DialOption.WithDefaultServiceConfig roundRobinConfig,
      DialOption.WithTransportCredentials (TransportCredentials.bundle 3)].length = 2 ∧
     ∃ creds,
      [DialOption.WithDefaultServiceConfig roundRobinConfig,
       DialOption.WithTransportCredentials (TransportCredentials.bundle 3)] =
      [DialOption.WithDefaultServiceConfig
          (lit "\x7b\"loadBalancingPolicy\":\"round_robin\"\x7d"),
       DialOption.WithTransportCredentials creds]) :=
  ⟨by decide,
   New_dial_options worldOk optsXds (lit "xds://cluster/svc")
     [DialOption.WithDefaultServiceConfig roundRobinConfig,
      DialOption.WithTransportCredentials (TransportCredentials.bundle 3)] (by decide)⟩

/-- C10: for every `AddressName`, of any length, the test
`len(a) < 6 || a[:6] != "xds://"` evaluates without a slice out of range, and
it is true exactly when `a` does not start with the six bytes `xds://`; it is
true on `xds:/` and on `XDS://host`, false on `xds://host`; and no call of
`New` panics. -/
theorem notXdsAddress_spec (a : GoString) :
    notXdsAddress a = some (decide (¬ lit "xds://" <+: a)) ∧
    notXdsAddress [] = some true ∧
    notXdsAddress (lit "xds:/") = some true ∧
    notXdsAddress (lit "XDS://host") = some true ∧
    notXdsAddress (lit "xds://host") = some false ∧
    ∀ (w : World) (o : Options), (New w o).result ≠ Result.panicked := by
  refine ⟨notXdsAddress_eq a, by decide, by decide, by decide, by decide, ?_⟩
  intro w o
  rcases New_shape w o with ⟨err, _, hN⟩ | ⟨pre, creds, _, hN⟩
  · rw [hN]
    simp
  · rw [hN]
    unfold connect
    split <;> simp

/-! ## Failures and the constructed facade -/

/-- C4 (as amended): when the dial reports an error `e`, `New` returns no
facade (nil) together with `e` itself, unchanged and unwrapped; a failed dial
never yields a facade or a nil error. -/
theorem New_dial_error (w : World) (o : Options) (t : GoString) (opts : List DialOption)
    (e : GoError) (hd : Event.NewClient t opts ∈ (New w o).trace)
    (he : w.NewClient t opts = .error e) :
    (New w o).result = Result.returned none (some e) := by
  obtain ⟨pre, _, hN⟩ := New_dial_connect w o t opts hd
  rw [hN]
  unfold connect
  rw [he]

theorem New_dial_error_witness :
    (Event.NewClient (lit "localhost:9000")
        [DialOption.WithDefaultServiceConfig roundRobinConfig,
         DialOption.WithTransportCredentials TransportCredentials.insecure]
      ∈ (New worldDialFails optsPlain).trace ∧
     worldDialFails.NewClient (lit "localhost:9000")
        [DialOption.WithDefaultServiceConfig roundRobinConfig,
         DialOption.WithTransportCredentials TransportCredentials.insecure]
      = .error (GoError.errorString (lit "connection refused"))) ∧
    (New worldDialFails optsPlain).result =
      Result.returned none (some (GoError.errorString (lit "connection refused"))) :=
  ⟨⟨by decide, rfl⟩,
   New_dial_error worldDialFails optsPlain (lit "localhost:9000")
     [DialOption.WithDefaultServiceConfig roundRobinConfig,
      DialOption.WithTransportCredentials TransportCredentials.insecure]
     (GoError.errorString (lit "connection refused")) (by decide) rfl⟩

/-- C4, as stated, fails: with a plain address and a dial that reports the
error "connection refused", the error `New` returns is that very error, and
unwrapping it does not give the dial's error (it wraps nothing). -/
theorem failed_dial_returns_bare_error :
    worldDialFails.NewClient (lit "localhost:9000")
        [DialOption.WithDefaultServiceConfig roundRobinConfig,
         DialOption.WithTransportCredentials TransportCredentials.insecure]
      = .error (GoError.errorString (lit "connection refused")) ∧
    (New worldDialFails optsPlain).result =
      Result.returned none (some (GoError.errorString (lit "connection refused"))) ∧
    ¬ ∃ r, (New worldDialFails optsPlain).result = Result.returned none (some r) ∧
        r.Unwrap = some (GoError.errorString (lit "connection refused")) := by
  refine ⟨rfl, by decide, ?_⟩
  rintro ⟨r, hr, hu⟩
  have hres : (New worldDialFails optsPlain).result =
      Result.returned none (some (GoError.errorString (lit "connection refused"))) := by
    decide
  rw [hres] at hr
  injection hr with _ hr
  injection hr with hr
  subst hr
  simp [GoError.Unwrap] at hu

/-- C5: when `New` reaches the discovery-based credential construction and
that construction fails with error `e`, `New` returns no facade (nil) and an
error whose text is `failed to create xds credentials: ` followed by the text
of `e` and which unwraps to `e`; no dial is made. -/
theorem New_xds_error (w : World) (o : Options) (co : ClientOptions) (e : GoError)
    (hx : Event.XdsNewClientCredentials co ∈ (New w o).trace)
    (he : w.XdsNewClientCredentials co = .error e) :
    ∃ r, (New w o).result = Result.returned none (some r) ∧
      r.Error = lit "failed to create xds credentials: " ++ e.Error ∧
      r.Unwrap = some e ∧
      dialCalls (New w o).trace = [] := by
  rcases New_shape w o with ⟨err, herr, hN⟩ | ⟨pre, creds, hpre, hN⟩
  · rw [hN] at hx
    simp at hx
    subst hx
    rw [herr] at he
    cases he
    refine ⟨Errorf (lit "failed to create xds credentials: ") e, by rw [hN], rfl, rfl, ?_⟩
    rw [hN]
    simp [dialCalls]
  · rw [hN] at hx
    have hm := connect_xds_mem w o pre _ _ co hx
    rcases hpre with hpre | ⟨hpre, hok⟩
    · rw [hpre] at hm
      simp at hm
    · rw [hpre] at hm
      simp at hm
      subst hm
      rw [hok] at he
      cases he

theorem New_xds_error_witness :
    (Event.XdsNewClientCredentials { FallbackCreds := TransportCredentials.insecure }
      ∈ (New worldXdsFails optsXds).trace ∧
     worldXdsFails.XdsNewClientCredentials { FallbackCreds := TransportCredentials.insecure }
      = .error (GoError.errorString (lit "no bootstrap"))) ∧
    ∃ r, (New worldXdsFails optsXds).result = Result.returned none (some r) ∧
      r.Error = lit "failed to create xds credentials: " ++
        (GoError.errorString (lit "no bootstrap")).Error ∧
      r.Unwrap = some (GoError.errorString (lit "no bootstrap")) ∧
      dialCalls (New worldXdsFails optsXds).trace = [] :=
  ⟨⟨by decide, rfl⟩,
   New_xds_error worldXdsFails optsXds { FallbackCreds := TransportCredentials.insecure }
     (GoError.errorString (lit "no bootstrap")) (by decide) rfl⟩

/-- C6: when the dial succeeds with connection `c`, `New` returns a nil error
and a facade whose `conn` is `c` and whose `Position`, `Staffs` and `Jwt`
handles are each constructed from `c`; the call made exactly one dial. -/
theorem New_dial_ok (w : World) (o : Options) (t : GoString) (opts : List DialOption)
    (c : ClientConn) (hd : Event.NewClient t opts ∈ (New w o).trace)
    (hok : w.NewClient t opts = .ok c) :
    ∃ f, (New w o).result = Result.returned (some f) none ∧
      f.conn = c ∧
      f.Position = NewPositionServiceClient c ∧
      f.Staffs = NewStaffsServiceClient c ∧
      f.Jwt = NewJwtServiceClient c ∧
      f.Position.cc = c ∧ f.Staffs.cc = c ∧ f.Jwt.cc = c ∧
      dialCalls (New w o).trace = [(t, opts)] := by
  obtain ⟨pre, hpre, hN⟩ := New_dial_connect w o t opts hd
  have hdc : dialCalls (New w o).trace = [(t, opts)] := by
    rw [hN, connect_trace_dial]
    rcases hpre with hpre | hpre <;> rw [hpre] <;> simp [dialCalls]
  have hr : (New w o).result = Result.returned
      (some { conn := c, log := o.Log, Position := NewPositionServiceClient c,
              Staffs := NewStaffsServiceClient c, Jwt := NewJwtServiceClient c }) none := by
    rw [hN]
    unfold connect
    rw [hok]
  exact ⟨_, hr, rfl, rfl, rfl, rfl, rfl, rfl, rfl, hdc⟩

theorem New_dial_ok_witness :
    (Event.NewClient (lit "xds://cluster/svc")
        [DialOption.WithDefaultServiceConfig roundRobinConfig,
         DialOption.WithTransportCredentials (TransportCredentials.bundle 3)]
      ∈ (New worldOk optsXds).trace ∧
     worldOk.NewClient (lit "xds://cluster/svc")
        [DialOption.WithDefaultServiceConfig roundRobinConfig,
         DialOption.WithTransportCredentials (TransportCredentials.bundle 3)]
      = .ok ⟨7⟩) ∧
    ∃ f, (New worldOk optsXds).result = Result.returned (some f) none ∧
      f.conn = ⟨7⟩ ∧
      f.Position = NewPositionServiceClient ⟨7⟩ ∧
      f.Staffs = NewStaffsServiceClient ⟨7⟩ ∧
      f.Jwt = NewJwtServiceClient ⟨7⟩ ∧
      f.Position.cc = ⟨7⟩ ∧ f.Staffs.cc = ⟨7⟩ ∧ f.Jwt.cc = ⟨7⟩ ∧
      dialCalls (New worldOk optsXds).trace =
        [(lit "xds://cluster/svc",
          [DialOption.WithDefaultServiceConfig roundRobinConfig,
           DialOption.WithTransportCredentials (TransportCredentials.bundle 3)])] :=
  ⟨⟨by decide, rfl⟩,
   New_dial_ok worldOk optsXds (lit "xds://cluster/svc")
     [DialOption.WithDefaultServiceConfig roundRobinConfig,
      DialOption.WithTransportCredentials (TransportCredentials.bundle 3)]
     ⟨7⟩ (by decide) rfl⟩

/-! ## Log entries -/

theorem connect_error_eq (w : World) (o : Options) (pre : List Event) (t : GoString)
    (d : List DialOption) (e : GoError) (he : w.NewClient t d = .error e) :
    connect w o pre t d =
      { trace := pre ++ [Event.NewClient t d,
          Event.LogError o.Log (lit "Failed to connect to auth service")
            [(lit "target", t), (lit "error", e.Error)]],
        result := Result.returned none (some e) } := by
  unfold connect
  rw [he]

theorem connect_ok_eq (w : World) (o : Options) (pre : List Event) (t : GoString)
    (d : List DialOption) (c : ClientConn) (hc : w.NewClient t d = .ok c) :
    connect w o pre t d =
      { trace := pre ++ [Event.NewClient t d,
          Event.LogInfo o.Log (lit "Connected to auth service") [(lit "target", t)]],
        result := Result.returned
          (some { conn := c, log := o.Log, Position := NewPositionServiceClient c,
                  Staffs := NewStaffsServiceClient c, Jwt := NewJwtServiceClient c })
          none } := by
  unfold connect
  rw [hc]

/-- The calls of a run of `New`, in order: the credential construction alone
(when it fails), or at most one credential construction, then the dial, then
one log entry through the logger of the configuration. -/
theorem New_trace_shape (w : World) (o : Options) :
    (New w o).trace =
      [Event.XdsNewClientCredentials { FallbackCreds := TransportCredentials.insecure }] ∨
    ∃ pre t opts msg fields,
      (pre = [] ∨ pre = [Event.XdsNewClientCredentials
        { FallbackCreds := TransportCredentials.insecure }]) ∧
      ((New w o).trace = pre ++ [Event.NewClient t opts, Event.LogError o.Log msg fields] ∨
       (New w o).trace = pre ++ [Event.NewClient t opts, Event.LogInfo o.Log msg fields]) := by
  rcases New_shape w o with ⟨err, _, hN⟩ | ⟨pre, creds, hpre, hN⟩
  · left
    rw [hN]
  · right
    cases hc : w.NewClient (if o.AddressName ≠ [] then o.AddressName else fallbackTarget)
        [DialOption.WithDefaultServiceConfig roundRobinConfig,
         DialOption.WithTransportCredentials creds] with
    | error e =>
      rw [connect_error_eq w o pre _ _ e hc] at hN
      exact ⟨pre, _, _, _, _, hpre.imp id And.left, Or.inl (by rw [hN])⟩
    | ok c =>
      rw [connect_ok_eq w o pre _ _ c hc] at hN
      exact ⟨pre, _, _, _, _, hpre.imp id And.left, Or.inr (by rw [hN])⟩

/-- C7 (as amended): a call of `New` that reaches the dial emits exactly one
log entry, through the configuration's logger, and has no other observable
effect: its calls are, in order, at most one discovery-based credential
construction, the one dial, and that log entry, which is an error-level entry
(with the target and the error text) when the dial fails and an info-level
entry (with the target) when the dial succeeds, so that every successful call
emits exactly one info-level entry.  A call whose discovery-based credential
construction fails makes that construction and nothing else: no dial and no
log entry.  No call of `New` releases a connection, logs through another
logger, or makes more than one construction, one dial and one log entry. -/
theorem New_log_entries (w : World) (o : Options) :
    (∀ t opts, Event.NewClient t opts ∈ (New w o).trace →
      ∃ pre, (pre = [] ∨ pre = [Event.XdsNewClientCredentials
          { FallbackCreds := TransportCredentials.insecure }]) ∧
        (∀ e, w.NewClient t opts = .error e →
          (New w o).result = Result.returned none (some e) ∧
          (New w o).trace = pre ++ [Event.NewClient t opts,
            Event.LogError o.Log (lit "Failed to connect to auth service")
              [(lit "target", t), (lit "error", e.Error)]] ∧
          logEntries (New w o).trace =
            [Event.LogError o.Log (lit "Failed to connect to auth service")
              [(lit "target", t), (lit "error", e.Error)]]) ∧
        (∀ c, w.NewClient t opts = .ok c →
          (∃ f, (New w o).result = Result.returned (some f) none) ∧
          (New w o).trace = pre ++ [Event.NewClient t opts,
            Event.LogInfo o.Log (lit "Connected to auth service") [(lit "target", t)]] ∧
          logEntries (New w o).trace =
            [Event.LogInfo o.Log (lit "Connected to auth service") [(lit "target", t)]])) ∧
    (∀ f, (New w o).result = Result.returned (some f) none →
      ∃ t, logEntries (New w o).trace =
        [Event.LogInfo o.Log (lit "Connected to auth service") [(lit "target", t)]]) ∧
    (∀ co e, Event.XdsNewClientCredentials co ∈ (New w o).trace →
      w.XdsNewClientCredentials co = .error e →
      (New w o).result = Result.returned none
        (some (Errorf (lit "failed to create xds credentials: ") e)) ∧
      (New w o).trace = [Event.XdsNewClientCredentials co] ∧
      dialCalls (New w o).trace = [] ∧
      logEntries (New w o).trace = []) ∧
    (dialCalls (New w o).trace = [] →
      (∃ e, (New w o).result = Result.returned none (some e)) ∧
      logEntries (New w o).trace = []) ∧
    (∀ ev, ev ∈ (New w o).trace →
      ev = Event.XdsNewClientCredentials { FallbackCreds := TransportCredentials.insecure } ∨
      (∃ t opts, ev = Event.NewClient t opts) ∨
      (∃ msg fields, ev = Event.LogError o.Log msg fields) ∨
      (∃ msg fields, ev = Event.LogInfo o.Log msg fields)) ∧
    (∀ c, Event.ConnClose c ∉ (New w o).trace) ∧
    (xdsCalls (New w o).trace).length ≤ 1 ∧
    (dialCalls (New w o).trace).length ≤ 1 ∧
    (logEntries (New w o).trace).length ≤ 1 := by
  have hpreLog : ∀ pre : List Event,
      (pre = [] ∨ pre = [Event.XdsNewClientCredentials
        { FallbackCreds := TransportCredentials.insecure }]) → logEntries pre = [] := by
    intro pre hpre
    rcases hpre with hpre | hpre <;> rw [hpre] <;> simp [logEntries, Event.isLog]
  refine ⟨?_, ?_, ?_, ?_, ?_, ?_, ?_, ?_, ?_⟩
  · intro t opts hd
    obtain ⟨pre, hpre, hN⟩ := New_dial_connect w o t opts hd
    refine ⟨pre, hpre, ?_, ?_⟩
    · intro e he
      refine ⟨?_, ?_, ?_⟩
      · rw [hN, connect_error_eq w o pre t opts e he]
      · rw [hN, connect_error_eq w o pre t opts e he]
      · rw [hN, connect_logEntries_error w o pre t opts e he, hpreLog pre hpre]
        rfl
    · intro c hc
      refine ⟨?_, ?_, ?_⟩
      · rw [hN, connect_ok_eq w o pre t opts c hc]
        exact ⟨_, rfl⟩
      · rw [hN, connect_ok_eq w o pre t opts c hc]
      · rw [hN, connect_logEntries_ok w o pre t opts c hc, hpreLog pre hpre]
        rfl
  · intro f hf
    rcases New_shape w o with ⟨err, _, hN⟩ | ⟨pre, creds, hpre, hN⟩
    · rw [hN] at hf
      simp at hf
    · cases hc : w.NewClient (if o.AddressName ≠ [] then o.AddressName else fallbackTarget)
          [DialOption.WithDefaultServiceConfig roundRobinConfig,
           DialOption.WithTransportCredentials creds] with
      | error e =>
        rw [hN, connect_error_eq w o pre _ _ e hc] at hf
        simp at hf
      | ok c =>
        refine ⟨if o.AddressName ≠ [] then o.AddressName else fallbackTarget, ?_⟩
        rw [hN, connect_logEntries_ok w o pre _ _ c hc, hpreLog pre (hpre.imp id And.left)]
        rfl
  · intro co e hx he
    rcases New_shape w o with ⟨err, herr, hN⟩ | ⟨pre, creds, hpre, hN⟩
    · rw [hN] at hx
      simp at hx
      subst hx
      rw [herr] at he
      cases he
      rw [hN]
      simp [dialCalls, logEntries, Event.isLog]
    · rw [hN] at hx
      have hm := connect_xds_mem w o pre _ _ co hx
      rcases hpre with hpre | ⟨hpre, hok⟩
      · rw [hpre] at hm
        simp at hm
      · rw [hpre] at hm
        simp at hm
        subst hm
        rw [hok] at he
        cases he
  · intro hnone
    rcases New_shape w o with ⟨err, _, hN⟩ | ⟨pre, creds, hpre, hN⟩
    · rw [hN]
      exact ⟨⟨_, rfl⟩, by simp [logEntries, Event.isLog]⟩
    · rw [hN, connect_trace_dial] at hnone
      simp at hnone
  · intro ev hev
    rcases New_trace_shape w o with hT | ⟨pre, t, opts, msg, fields, hpre, hT | hT⟩
    · rw [hT] at hev
      simp at hev
      exact Or.inl hev
    · rw [hT] at hev
      rcases hpre with hpre | hpre <;> rw [hpre] at hev <;> simp at hev <;> aesop
    · rw [hT] at hev
      rcases hpre with hpre | hpre <;> rw [hpre] at hev <;> simp at hev <;> aesop
  · intro c hmem
    rcases New_trace_shape w o with hT | ⟨pre, t, opts, msg, fields, hpre, hT | hT⟩
    · rw [hT] at hmem
      simp at hmem
    · rw [hT] at hmem
      rcases hpre with hpre | hpre <;> rw [hpre] at hmem <;> simp at hmem
    · rw [hT] at hmem
      rcases hpre with hpre | hpre <;> rw [hpre] at hmem <;> simp at hmem
  · rcases New_trace_shape w o with hT | ⟨pre, t, opts, msg, fields, hpre, hT | hT⟩
    · rw [hT]
      simp [xdsCalls]
    · rw [hT]
      rcases hpre with hpre | hpre <;> rw [hpre] <;> simp [xdsCalls]
    · rw [hT]
      rcases hpre with hpre | hpre <;> rw [hpre] <;> simp [xdsCalls]
  · rcases New_trace_shape w o with hT | ⟨pre, t, opts, msg, fields, hpre, hT | hT⟩
    · rw [hT]
      simp [dialCalls]
    · rw [hT]
      rcases hpre with hpre | hpre <;> rw [hpre] <;> simp [dialCalls]
    · rw [hT]
      rcases hpre with hpre | hpre <;> rw [hpre] <;> simp [dialCalls]
  · rcases New_trace_shape w o with hT | ⟨pre, t, opts, msg, fields, hpre, hT | hT⟩
    · rw [hT]
      simp [logEntries, Event.isLog]
    · rw [hT]
      rcases hpre with hpre | hpre <;> rw [hpre] <;> simp [logEntries, Event.isLog]
    · rw [hT]
      rcases hpre with hpre | hpre <;> rw [hpre] <;> simp [logEntries, Event.isLog]

theorem New_log_entries_witness :
    ((Event.XdsNewClientCredentials { FallbackCreds := TransportCredentials.insecure }
      ∈ (New worldXdsFails optsEmpty).trace ∧
     worldXdsFails.XdsNewClientCredentials { FallbackCreds := TransportCredentials.insecure }
      = .error (GoError.errorString (lit "no bootstrap"))) ∧
    (New worldXdsFails optsEmpty).result = Result.returned none
      (some (Errorf (lit "failed to create xds credentials: ")
        (GoError.errorString (lit "no bootstrap")))) ∧
    (New worldXdsFails optsEmpty).trace =
      [Event.XdsNewClientCredentials { FallbackCreds := TransportCredentials.insecure }] ∧
    dialCalls (New worldXdsFails optsEmpty).trace = [] ∧
    logEntries (New worldXdsFails optsEmpty).trace = []) ∧
    ((Event.NewClient (lit "localhost:9000")
        [DialOption.WithDefaultServiceConfig roundRobinConfig,
         DialOption.WithTransportCredentials TransportCredentials.insecure]
      ∈ (New worldDialFails optsPlain).trace ∧
     worldDialFails.NewClient (lit "localhost:9000")
        [DialOption.WithDefaultServiceConfig roundRobinConfig,
         DialOption.WithTransportCredentials TransportCredentials.insecure]
      = .error (GoError.errorString (lit "connection refused"))) ∧
    ∃ pre, (pre = [] ∨ pre = [Event.XdsNewClientCredentials
        { FallbackCreds := TransportCredentials.insecure }]) ∧
      (New worldDialFails optsPlain).result =
        Result.returned none (some (GoError.errorString (lit "connection refused"))) ∧
      (New worldDialFails optsPlain).trace = pre ++
        [Event.NewClient (lit "localhost:9000")
          [DialOption.WithDefaultServiceConfig roundRobinConfig,
           DialOption.WithTransportCredentials TransportCredentials.insecure],
         Event.LogError optsPlain.Log (lit "Failed to connect to auth service")
          [(lit "target", lit "localhost:9000"),
           (lit "error", (GoError.errorString (lit "connection refused")).Error)]] ∧
      logEntries (New worldDialFails optsPlain).trace =
        [Event.LogError optsPlain.Log (lit "Failed to connect to auth service")
          [(lit "target", lit "localhost:9000"),
           (lit "error", (GoError.errorString (lit "connection refused")).Error)]]) :=
  ⟨⟨⟨by decide, rfl⟩,
    (New_log_entries worldXdsFails optsEmpty).2.2.1
      { FallbackCreds := TransportCredentials.insecure }
      (GoError.errorString (lit "no bootstrap")) (by decide) rfl⟩,
   ⟨by decide, rfl⟩,
   match (New_log_entries worldDialFails optsPlain).1 (lit "localhost:9000")
      [DialOption.WithDefaultServiceConfig roundRobinConfig,
       DialOption.WithTransportCredentials TransportCredentials.insecure] (by decide) with
   | ⟨pre, hpre, herr, _⟩ =>
     ⟨pre, hpre, herr (GoError.errorString (lit "connection refused")) rfl⟩⟩

/-- C7, as stated, fails: with no address, no environment indicator and a
discovery-based credential construction that fails, the call of `New` fails
(nil facade, non-nil error) and emits no log entry at all, so not exactly one. -/
theorem credential_failure_is_silent :
    (New worldXdsFails optsEmpty).result =
      Result.returned none
        (some (Errorf (lit "failed to create xds credentials: ")
          (GoError.errorString (lit "no bootstrap")))) ∧
    logEntries (New worldXdsFails optsEmpty).trace = [] ∧
    (logEntries (New worldXdsFails optsEmpty).trace).length ≠ 1 := by
  decide

/-! ## `Close` -/

/-- C8: for a facade `f` that a call of `New` returned with a nil error, a call
of `Close` on `f` makes exactly one call, the release of `f.conn` (the
connection that call of `New` dialled), and returns what the release reports,
unchanged: an error if and only if the release reports one. -/
theorem Close_releases (w wc : World) (o : Options) (f : Facade)
    (h : (New w o).result = Result.returned (some f) none) :
    (∃ t opts, Event.NewClient t opts ∈ (New w o).trace ∧ w.NewClient t opts = .ok f.conn) ∧
    (Facade.Close wc (some f)).trace = [Event.ConnClose f.conn] ∧
    (Facade.Close wc (some f)).result = CloseResult.returned (wc.ConnClose f.conn) ∧
    ((∃ e, (Facade.Close wc (some f)).result = CloseResult.returned (some e)) ↔
      ∃ e, wc.ConnClose f.conn = some e) := by
  refine ⟨?_, rfl, rfl, ?_⟩
  · rcases New_shape w o with ⟨err, _, hN⟩ | ⟨pre, creds, hpre, hN⟩
    · rw [hN] at h
      simp at h
    · cases hc : w.NewClient (if o.AddressName ≠ [] then o.AddressName else fallbackTarget)
          [DialOption.WithDefaultServiceConfig roundRobinConfig,
           DialOption.WithTransportCredentials creds] with
      | error e =>
        rw [hN] at h
        unfold connect at h
        rw [hc] at h
        simp at h
      | ok c =>
        have hf : f.conn = c := by
          rw [hN] at h
          unfold connect at h
          rw [hc] at h
          simp at h
          rw [← h]
        refine ⟨_, _, ?_, hf ▸ hc⟩
        rw [hN]
        unfold connect
        rw [hc]
        simp
  · simp [Facade.Close]

theorem Close_releases_witness :
    (New worldOk optsPlain).result =
      Result.returned
        (some { conn := ⟨7⟩, log := ⟨1⟩, Position := ⟨⟨7⟩⟩, Staffs := ⟨⟨7⟩⟩, Jwt := ⟨⟨7⟩⟩ })
        none ∧
    (Facade.Close worldDialFails
      (some { conn := ⟨7⟩, log := ⟨1⟩, Position := ⟨⟨7⟩⟩, Staffs := ⟨⟨7⟩⟩,
              Jwt := ⟨⟨7⟩⟩ })).trace = [Event.ConnClose ⟨7⟩] ∧
    (Facade.Close worldDialFails
      (some { conn := ⟨7⟩, log := ⟨1⟩, Position := ⟨⟨7⟩⟩, Staffs := ⟨⟨7⟩⟩,
              Jwt := ⟨⟨7⟩⟩ })).result =
      CloseResult.returned (some (GoError.errorString (lit "already closed"))) :=
  have h := Close_releases worldOk worldDialFails optsPlain
    { conn := ⟨7⟩, log := ⟨1⟩, Position := ⟨⟨7⟩⟩, Staffs := ⟨⟨7⟩⟩, Jwt := ⟨⟨7⟩⟩ } (by decide)
  ⟨by decide, h.2.1, h.2.2.1⟩

end AuthClient
